import Mathlib

/-!
Shallow embedding of `src/medicine_scraper.py` (a sequential product-page
scraper) and proofs about its field-extraction heuristics.

Modelling conventions:
* Text is `String` / `List Char`; Python's `len` counts code points, which
  matches `List.length` on `List Char`.
* The HTML-parsing, HTTP and URL collaborators (BeautifulSoup, requests,
  `urllib.parse.urljoin`) are external to the repository; a parsed document
  is modelled as an oracle structure `Doc` exposing exactly the queries the
  scraper performs (`select_one(...).get_text(strip=True)`, image tags with
  their four source attributes, the JSON-LD `image` payloads, the `og:image`
  meta content and the document's full visible text).
* Each regular expression the scraper uses is embedded as a start-anchored
  matcher (returning the captured group and, where needed, the rest of the
  input) driven by `reSearch`, which mirrors `re.search`'s leftmost-match
  scan.  The patterns used contain no constructs whose greedy/lazy behaviour
  differs from this direct reading on any input (digits cannot overlap the
  literals that follow them, and the lazy `.*?` gaps are pure existence
  checks), so the embedding is exact.
* `re.IGNORECASE` is modelled with `Char.toLower` (the patterns are ASCII
  apart from `₹`, which has no case).
-/

namespace MedScraper

/-- Python `str.lower` over characters (ASCII folding; the selector strings
and pattern literals used by the scraper are ASCII apart from `₹`). -/
def toLowerL (s : List Char) : List Char := s.map Char.toLower

/-- The whitespace recognised by Python's `str.split` and the `\s` class
(ASCII part: space, tab, newline, carriage return, vertical tab, form feed). -/
def isPySpace (c : Char) : Bool :=
  c = ' ' || c = '\t' || c = '\n' || c = '\r' || c = Char.ofNat 11 || c = Char.ofNat 12

/-- Python's case-sensitive substring test `needle in hay`. -/
def containsSub (needle : List Char) : List Char → Bool
  | [] => needle.isEmpty
  | c :: cs => needle.isPrefixOf (c :: cs) || containsSub needle cs

/-- Case-insensitive substring containment (used for `re.IGNORECASE`
lookaheads such as `(?!.*MRP)`). -/
def containsSubCI (needle hay : List Char) : Bool :=
  containsSub (toLowerL needle) (toLowerL hay)

/-- Helper for `normWs`: split into maximal whitespace-free words. -/
def wordsAux : List Char → List Char → List (List Char)
  | [], acc => if acc.isEmpty then [] else [acc.reverse]
  | c :: cs, acc =>
    if isPySpace c then
      if acc.isEmpty then wordsAux cs [] else acc.reverse :: wordsAux cs []
    else wordsAux cs (c :: acc)

/-- Python `" ".join(text.split())`: collapse whitespace runs into single
spaces and trim the ends (lines 287 and 438 of the source). -/
def normWs (s : List Char) : List Char := List.intercalate [' '] (wordsAux s [])

/-- Match a literal at the start of the input, case-insensitively
(`re.IGNORECASE`); returns the rest of the input. -/
def matchLitCI : List Char → List Char → Option (List Char)
  | [], s => some s
  | _ :: _, [] => none
  | l :: ls, c :: cs => if l.toLower = c.toLower then matchLitCI ls cs else none

/-- `\s*`. -/
def eatSpaces (s : List Char) : List Char := s.dropWhile isPySpace

/-- `\.?`. -/
def optDot : List Char → List Char
  | '.' :: cs => cs
  | s => s

/-- The optional trailing `s?` of the unit words (case-insensitive). -/
def optS : List Char → List Char
  | c :: cs => if c.toLower = 's' then cs else c :: cs
  | [] => []

/-- `\d+(?:\.\d+)?` at the start of the input: the captured number and the
rest.  Greedy, as in the source patterns; no pattern that uses it is ever
followed by a character a digit could also satisfy, so no backtracking into
the number is possible. -/
def matchNum (s : List Char) : Option (List Char × List Char) :=
  let ds := s.takeWhile Char.isDigit
  let r1 := s.dropWhile Char.isDigit
  if ds.isEmpty then none
  else
    match r1 with
    | '.' :: r2 =>
      let fs := r2.takeWhile Char.isDigit
      if fs.isEmpty then some (ds, r1)
      else some (ds ++ '.' :: fs, r2.dropWhile Char.isDigit)
    | _ => some (ds, r1)

/-- `\d+` at the start of the input. -/
def matchDigits (s : List Char) : Option (List Char × List Char) :=
  let ds := s.takeWhile Char.isDigit
  if ds.isEmpty then none else some (ds, s.dropWhile Char.isDigit)

/-- `re.search`: try the start-anchored matcher at every position from left
to right; the leftmost successful position wins. -/
def reSearch (m : List Char → Option (List Char)) : List Char → Option (List Char)
  | [] => m []
  | c :: cs =>
    match m (c :: cs) with
    | some v => some v
    | none => reSearch m cs

/-- The rest of the input after the first case-insensitive occurrence of
`needle`: the effect of a lazy `.*?needle` in the middle of a pattern
(these gaps are pure existence checks in the patterns used, so taking the
first occurrence is exact). -/
def dropThroughCI (needle : List Char) : List Char → Option (List Char)
  | [] => if needle.isEmpty then some [] else none
  | c :: cs =>
    match matchLitCI needle (c :: cs) with
    | some r => some r
    | none => dropThroughCI needle cs

/-- Try each matcher with `re.search` in order, first success wins: the
`for pattern in patterns: re.search(...)` idiom of the source. -/
def firstSome (ms : List (List Char → Option (List Char))) (t : List Char) :
    Option (List Char) :=
  match ms with
  | [] => none
  | m :: rest =>
    match reSearch m t with
    | some v => some v
    | none => firstSome rest t

/-! ### Price parsing (`parse_price_info`, lines 283-343) -/

/-- `MRP\s*₹\s*(\d+(?:\.\d+)?)` (line 294). -/
def matchMrp1 (s : List Char) : Option (List Char) := do
  let r1 ← matchLitCI "MRP".data s
  let r2 ← matchLitCI "₹".data (eatSpaces r1)
  let (v, _) ← matchNum (eatSpaces r2)
  pure v

/-- `MRP\s*Rs\.?\s*(\d+(?:\.\d+)?)` (line 295). -/
def matchMrp2 (s : List Char) : Option (List Char) := do
  let r1 ← matchLitCI "MRP".data s
  let r2 ← matchLitCI "Rs".data (eatSpaces r1)
  let (v, _) ← matchNum (eatSpaces (optDot r2))
  pure v

/-- `Maximum Retail Price\s*₹\s*(\d+(?:\.\d+)?)` (line 296). -/
def matchMrp3 (s : List Char) : Option (List Char) := do
  let r1 ← matchLitCI "Maximum Retail Price".data s
  let r2 ← matchLitCI "₹".data (eatSpaces r1)
  let (v, _) ← matchNum (eatSpaces r2)
  pure v

/-- The MRP pattern loop (lines 299-307): first pattern with a match wins;
the value is the captured group of that match. -/
def mrpCascade (t : List Char) : Option (List Char) :=
  firstSome [matchMrp1, matchMrp2, matchMrp3] t

/-- `<label>\s*₹\s*(\d+(?:\.\d+)?)` for the four labelled discount patterns
(lines 311-314). -/
def matchLabelRupNum (label : String) (s : List Char) : Option (List Char) := do
  let r1 ← matchLitCI label.data s
  let r2 ← matchLitCI "₹".data (eatSpaces r1)
  let (v, _) ← matchNum (eatSpaces r2)
  pure v

/-- `₹\s*(\d+(?:\.\d+)?)\s*\(.*?off.*?\)` (line 315). -/
def matchDisc5 (s : List Char) : Option (List Char) := do
  let r1 ← matchLitCI "₹".data s
  let (v, r2) ← matchNum (eatSpaces r1)
  let r3 ← matchLitCI "(".data (eatSpaces r2)
  let r4 ← dropThroughCI "off".data r3
  let _ ← dropThroughCI ")".data r4
  pure v

/-- `₹\s*(\d+(?:\.\d+)?)\s*after.*?discount` (line 316). -/
def matchDisc6 (s : List Char) : Option (List Char) := do
  let r1 ← matchLitCI "₹".data s
  let (v, r2) ← matchNum (eatSpaces r1)
  let r3 ← matchLitCI "after".data (eatSpaces r2)
  let _ ← dropThroughCI "discount".data r3
  pure v

/-- The discounted-price pattern loop (lines 319-323). -/
def discCascade (t : List Char) : Option (List Char) :=
  firstSome
    [matchLabelRupNum "Discounted Price:", matchLabelRupNum "Offer Price:",
     matchLabelRupNum "Best Price:", matchLabelRupNum "Final Price:",
     matchDisc5, matchDisc6] t

/-- Decimal digits to a natural number. -/
def digitsToNat (ds : List Char) : Nat :=
  ds.foldl (fun n c => n * 10 + (c.toNat - '0'.toNat)) 0

/-- A natural number in decimal. -/
def natToDec (n : Nat) : List Char := Nat.toDigits 10 n

/-- Two-digit zero-padded rendering of `n < 100`. -/
def pad2 (n : Nat) : List Char := if n < 10 then '0' :: natToDec n else natToDec n

/-- Python `f"{float(v):.2f}"` for the nonnegative decimal literal
`ip.fp` with more than two fractional digits, modelled as exact decimal
rounding with ties to even.  (The source rounds the IEEE double nearest to
the literal; the two differ only when the literal is an exact `…5̄0…`
half-way case that is not binary-representable, where the double's rounding
direction is noise.  No theorem below evaluates at such a tie.) -/
def formatRound2 (ip fp : List Char) : List Char :=
  let k := fp.length
  let total := digitsToNat ip * 10 ^ k + digitsToNat fp
  let d := 10 ^ (k - 2)
  let q := total / d
  let r := total % d
  let q2 :=
    if 2 * r < d then q
    else if d < 2 * r then q + 1
    else if q % 2 = 0 then q else q + 1
  natToDec (q2 / 100) ++ '.' :: pad2 (q2 % 100)

/-- Lines 303-305: a matched MRP value with more than two fractional digits
is reformatted to two decimal places; anything else is kept verbatim. -/
def cleanupMrpDecimal (v : List Char) : List Char :=
  if containsSub ".".data v then
    let ip := v.takeWhile (fun c => c ≠ '.')
    let fp := (v.dropWhile (fun c => c ≠ '.')).tail
    if 2 < fp.length then formatRound2 ip fp else v
  else v

/-- `₹\s*(\d+(?:\.\d+)?)` at the start, capture only. -/
def matchRupSpNum (s : List Char) : Option (List Char) := do
  let r1 ← matchLitCI "₹".data s
  let (v, _) ← matchNum (eatSpaces r1)
  pure v

/-- `re.findall(r'₹\s*(\d+(?:\.\d+)?)', t)` (lines 327 and 466): scan left
to right, collecting non-overlapping matches and resuming after each match.
`fuel` starts at the text's length; every step consumes at least one
character, so the fuel never runs out on the initial call. -/
def findAllRupeeAux : Nat → List Char → List (List Char)
  | 0, _ => []
  | _ + 1, [] => []
  | fuel + 1, c :: cs =>
    if c = '₹' then
      match matchNum (eatSpaces cs) with
      | some (v, rest) => v :: findAllRupeeAux fuel rest
      | none => findAllRupeeAux fuel cs
    else findAllRupeeAux fuel cs

def findAllRupee (t : List Char) : List (List Char) := findAllRupeeAux t.length t

/-- The sentinel `"N/A"` as a character list. -/
def nA : List Char := ['N', '/', 'A']

/-- Lines 299-307 as a value: `"₹" + cleaned match` or the sentinel. -/
def mrpFromCascade (t : List Char) : List Char :=
  match mrpCascade t with
  | some v => '₹' :: cleanupMrpDecimal v
  | none => nA

/-- Lines 319-323 as a value: `"₹" + match` (kept verbatim) or the sentinel. -/
def discFromCascade (t : List Char) : List Char :=
  match discCascade t with
  | some v => '₹' :: v
  | none => nA

/-- Lines 325-332: when the text contains the literal `MRP` token and a `₹`
and at least two `₹`-amounts occur, each still-missing field is filled from
the first (MRP) and second (discounted) occurrence. -/
def mrpTokenFallback (t : List Char) (p : List Char × List Char) :
    List Char × List Char :=
  if containsSub "MRP".data t && containsSub "₹".data t then
    match findAllRupee t with
    | a :: b :: _ =>
      (if p.1 = nA then '₹' :: a else p.1, if p.2 = nA then '₹' :: b else p.2)
    | _ => p
  else p

/-- Lines 334-338: if exactly one of the two fields is still missing, mirror
the other into it. -/
def mirrorSingle (p : List Char × List Char) : List Char × List Char :=
  if p.2 = nA ∧ p.1 ≠ nA then (p.1, p.1)
  else if p.1 = nA ∧ p.2 ≠ nA then (p.2, p.2)
  else p

structure PriceInfo where
  mrp : String
  discounted_price : String
deriving DecidableEq

/-- The value pipeline of `parse_price_info` on the already-normalised
text: cascade results, then the MRP-token fallback, then the mirror step. -/
def parse_price_pair (t : List Char) : List Char × List Char :=
  mirrorSingle (mrpTokenFallback t (mrpFromCascade t, discFromCascade t))

/-- `parse_price_info` (lines 283-343). -/
def parse_price_info (price_text : String) : PriceInfo :=
  ⟨String.mk (parse_price_pair (normWs price_text.data)).1,
   String.mk (parse_price_pair (normWs price_text.data)).2⟩

/-! ### Price cleanup (`clean_price_text`, lines 434-502) -/

/-- `Discounted Price:\s*(\d+(?:\.\d+)?)` (line 458; no `₹` in this one). -/
def matchDPnum (s : List Char) : Option (List Char) := do
  let r1 ← matchLitCI "Discounted Price:".data s
  let (v, _) ← matchNum (eatSpaces r1)
  pure v

/-- `re.search(r'MRP.*?₹\s*(\d+(?:\.\d+)?)', t, re.IGNORECASE)` (line 472):
a `₹`-amount somewhere after the first `MRP`.  (A match after any later
`MRP` occurrence is also after the first, so scanning from the first
occurrence is exactly the regex's leftmost-match semantics.) -/
def mrpThenRupeeNum (t : List Char) : Option (List Char) := do
  let r ← dropThroughCI "MRP".data t
  reSearch matchRupSpNum r

/-- The rest of the text after the first match of `(?:after|off|discount|offer)`
(case-insensitively; the alternation order of line 475 is kept, though only
the position of the first keyword occurrence matters). -/
def dropThroughFirstKeyword : List Char → Option (List Char)
  | [] => none
  | c :: cs =>
    match matchLitCI "after".data (c :: cs) with
    | some r => some r
    | none =>
      match matchLitCI "off".data (c :: cs) with
      | some r => some r
      | none =>
        match matchLitCI "discount".data (c :: cs) with
        | some r => some r
        | none =>
          match matchLitCI "offer".data (c :: cs) with
          | some r => some r
          | none => dropThroughFirstKeyword cs

/-- First capture of `re.findall(r'(?:after|off|discount|offer).*?₹\s*(\d+(?:\.\d+)?)', ...)`
(line 475; only element 0 of the findall result is ever read). -/
def keywordThenRupeeNum (t : List Char) : Option (List Char) := do
  let r ← dropThroughFirstKeyword t
  reSearch matchRupSpNum r

/-- Lines 464-477: the `'MRP' in text and '₹' in text` branch body. -/
def mrpBlock (t : List Char) : Option (List Char) :=
  match findAllRupee t with
  | _ :: b :: _ => some b
  | [_] =>
    match mrpThenRupeeNum t with
    | some _ => keywordThenRupeeNum t
    | none => none
  | [] => none

/-- `₹\s*(\d+(?:\.\d+)?)(?!.*MRP)` (line 481): the negative lookahead is an
`MRP`-free (case-insensitive) remainder; shrinking the greedy number only
lengthens the remainder by digit characters, which cannot create or remove
an `MRP` occurrence, so no backtracking arises. -/
def matchNonMrp1 (s : List Char) : Option (List Char) := do
  let r1 ← matchLitCI "₹".data s
  let (v, r2) ← matchNum (eatSpaces r1)
  if containsSubCI "MRP".data r2 then none else pure v

/-- `Rs\.?\s*(\d+(?:\.\d+)?)(?!.*MRP)` (line 482). -/
def matchNonMrp2 (s : List Char) : Option (List Char) := do
  let r1 ← matchLitCI "Rs".data s
  let (v, r2) ← matchNum (eatSpaces (optDot r1))
  if containsSubCI "MRP".data r2 then none else pure v

/-- `INR\s*(\d+(?:\.\d+)?)(?!.*MRP)` (line 483). -/
def matchNonMrp3 (s : List Char) : Option (List Char) := do
  let r1 ← matchLitCI "INR".data s
  let (v, r2) ← matchNum (eatSpaces r1)
  if containsSubCI "MRP".data r2 then none else pure v

/-- The non-MRP pattern loop (lines 486-490). -/
def nonMrpCascade (t : List Char) : Option (List Char) :=
  firstSome [matchNonMrp1, matchNonMrp2, matchNonMrp3] t

/-- `[₹Rs]\.?\s*(\d+(?:\.\d+)?)` with `re.IGNORECASE` (line 493): the
character class admits `₹`, `R`, `r`, `S` and `s`. -/
def matchCurrencyAny : List Char → Option (List Char)
  | [] => none
  | c :: cs =>
    if c = '₹' || c.toLower = 'r' || c.toLower = 's' then
      (matchNum (eatSpaces (optDot cs))).map Prod.fst
    else none

/-- `clean_price_text` (lines 434-502). -/
def clean_price_text (price_text : String) : String :=
  let t := normWs price_text.data
  match discCascade t with
  | some v => String.mk ('₹' :: v)
  | none =>
  match (if containsSub "Discounted Price:".data t then reSearch matchDPnum t else none) with
  | some v => String.mk ('₹' :: v)
  | none =>
  match (if containsSub "MRP".data t && containsSub "₹".data t then mrpBlock t else none) with
  | some v => String.mk ('₹' :: v)
  | none =>
  match nonMrpCascade t with
  | some v => String.mk ('₹' :: v)
  | none =>
  match reSearch matchCurrencyAny t with
  | some v => String.mk ('₹' :: v)
  | none =>
    if t.length < 20 ∧ (containsSub "₹".data t ∨ containsSub "Rs".data t) then String.mk t
    else "N/A"

/-! ### The document oracle -/

/-- An `<img>` node's four candidate source attributes (lines 538-541);
`none` is an absent attribute. -/
structure Img where
  src : Option String
  dataSrc : Option String
  dataLazySrc : Option String
  dataOriginal : Option String

/-- The `image` payload of a JSON-LD script that decoded to a dict with an
`image` key: a string or a list.  (The source treats the list's elements as
URL strings; list elements are modelled as strings — a non-string head
raises and aborts to the meta-tag fallback, a corner no claim touches.) -/
inductive LdImage where
  | strVal (s : String)
  | listVal (l : List String)

/-- The parsed-document oracle: exactly the queries the scraper performs
against a BeautifulSoup document.  `selectText sel` is
`select_one(sel).get_text(strip=True)` (`none` when no node matches),
`selectImg sel` the first node of an `img` selector, `allImgs` the
`find_all('img')` sequence, `ldImages` the JSON-LD scripts (`none` for one
that fails to decode, is not a dict or has no `image` key) and `ogImage`
the `og:image` meta content. -/
structure Doc where
  selectText : String → Option String
  selectImg : String → Option Img
  allImgs : List Img
  ldImages : List (Option LdImage)
  ogImage : Option String
  fullText : String

/-! ### `extract_field` (lines 415-432) -/

/-- Line 424: `"price" in selector.lower() or "Price" in selector`. -/
def isPriceSelector (sel : String) : Bool :=
  containsSub "price".data (toLowerL sel.data) || containsSub "Price".data sel.data

/-- `extract_field` (lines 415-432).  In the price-selector branch the
source rebinds `text` to `clean_price_text(text)` and then returns it on
both paths (line 428 when usable, line 429 otherwise), so the cleaned value
— possibly the sentinel `"N/A"` — is returned unconditionally and the
remaining selectors are never tried. -/
def extract_field (soup : Doc) : List String → String
  | [] => "N/A"
  | sel :: rest =>
    match soup.selectText sel with
    | some t =>
      if t ≠ "" then
        if isPriceSelector sel then clean_price_text t
        else t
      else extract_field soup rest
    | none => extract_field soup rest

/-! ### `extract_quantity` (lines 144-211) -/

/-- The selector list of lines 148-163. -/
def quantity_selectors : List String :=
  [".DrugHeader__pack-size", ".DrugHeader__quantity", ".ProductInfo__pack-size",
   ".ProductInfo__quantity", ".pack-size", ".quantity", ".tablet-count",
   ".strip-count", "[class*='pack']", "[class*='quantity']", "[class*='count']",
   "[class*='size']"]

/-- `(?:tablets?|tabs?|strips?|capsules?|pills?)`: the unit alternation of
line 172 (nothing follows the group there, so the greedy optional `s` and
the alternation order cannot affect whether the whole pattern matches). -/
def matchUnitAlt (s : List Char) : Option (List Char) :=
  (matchLitCI "tablet".data s).map optS <|>
  (matchLitCI "tab".data s).map optS <|>
  (matchLitCI "strip".data s).map optS <|>
  (matchLitCI "capsule".data s).map optS <|>
  (matchLitCI "pill".data s).map optS

/-- `(\d+(?:\.\d+)?)\s*(?:tablets?|tabs?|strips?|capsules?|pills?)` (line 172). -/
def matchQuantSel (s : List Char) : Option (List Char) := do
  let (v, r) ← matchNum s
  let _ ← matchUnitAlt (eatSpaces r)
  pure v

/-- `(\d+(?:\.\d+)?)\s*tablets?\s*in\s*\d+\s*strip` (line 191). -/
def matchQuantInStrip (s : List Char) : Option (List Char) := do
  let (v, r1) ← matchNum s
  let r2 ← matchLitCI "tablet".data (eatSpaces r1)
  let r3 ← matchLitCI "in".data (eatSpaces (optS r2))
  let (_, r4) ← matchDigits (eatSpaces r3)
  let _ ← matchLitCI "strip".data (eatSpaces r4)
  pure v

/-- `(\d+(?:\.\d+)?)\s*<unit>s?` for the simple fallback patterns of lines
192-197 (the trailing optional `s` ends the pattern, so matching the bare
unit word suffices). -/
def matchQuantUnitP (w : String) (s : List Char) : Option (List Char) := do
  let (v, r) ← matchNum s
  let _ ← matchLitCI w.data (eatSpaces r)
  pure v

/-- Lines 176-177 / 204-206: strip a trailing `.0` from the matched number. -/
def stripDot0 (q : List Char) : List Char :=
  if q.reverse.take 2 = ['0', '.'] then q.dropLast.dropLast else q

/-- `f"{quantity_num} tablets"` after the `.0` strip (lines 174-178). -/
def fmtQuantity (q : List Char) : String := String.mk (stripDot0 q ++ " tablets".data)

/-- Lines 171-182: the handling of one selector-matched text. -/
def quantityFromText (t : String) : Option String :=
  match reSearch matchQuantSel t.data with
  | some q => some (fmtQuantity q)
  | none => if t.data.any Char.isDigit then some t else none

/-- The selector loop of lines 165-184. -/
def quantitySelectorLoop (soup : Doc) : List String → Option String
  | [] => none
  | sel :: rest =>
    match soup.selectText sel with
    | some t =>
      if t ≠ "" then
        match quantityFromText t with
        | some r => some r
        | none => quantitySelectorLoop soup rest
      else quantitySelectorLoop soup rest
    | none => quantitySelectorLoop soup rest

/-- The fallback pattern family of lines 190-198, in priority order. -/
def quantity_fallback_patterns : List (List Char → Option (List Char)) :=
  [matchQuantInStrip, matchQuantUnitP "tablet", matchQuantUnitP "tab",
   matchQuantUnitP "strip", matchQuantUnitP "capsule", matchQuantUnitP "pill",
   matchQuantUnitP "piece"]

/-- The whole-text pattern loop of lines 187-207. -/
def quantityFallback (allText : String) : Option String :=
  (firstSome quantity_fallback_patterns allText.data).map fmtQuantity

/-- `extract_quantity` (lines 144-211). -/
def extract_quantity (soup : Doc) : String :=
  match quantitySelectorLoop soup quantity_selectors with
  | some r => r
  | none =>
    match quantityFallback soup.fullText with
    | some r => r
    | none => "N/A"

/-! ### `extract_price_info` (lines 213-281) -/

/-- The price-container selector list (lines 217-231). -/
def price_containers : List String :=
  [".DrugPriceBox", ".PriceBox", ".DrugPrice", ".PriceBoxPlanOption",
   ".SubstituteItem__unit-price___MIbLo", "[class*='price']", "[class*='Price']",
   "[class*='cost']", ".price-display", ".price-container", ".pricing"]

/-- The individual price selector list (lines 247-267). -/
def individual_price_selectors : List String :=
  [".DrugPriceBox__best-price___32JXw", ".DrugPriceBox__price", ".PriceBox__price",
   ".PriceBox__best-price", ".SubstituteItem__unit-price___MIbLo",
   ".PriceBoxPlanOption__offerPrice", ".PriceBoxPlanOption__price",
   ".DrugPrice__price", ".DrugPrice__best-price", ".style__price-tag",
   ".price-display", ".price", ".best-price", ".offer-price", "[class*='price']",
   "[class*='Price']", "[class*='cost']"]

/-- The container loop (lines 233-244): a container counts only when its
text holds a currency marker, and its parse is kept only when it produced
at least one of the two values. -/
def priceContainerLoop (soup : Doc) : List String → Option PriceInfo
  | [] => none
  | sel :: rest =>
    match soup.selectText sel with
    | some t =>
      if t ≠ "" ∧ (containsSub "₹".data t.data ∨ containsSub "Rs".data t.data) then
        let pi := parse_price_info t
        if pi.discounted_price ≠ "N/A" ∨ pi.mrp ≠ "N/A" then some pi
        else priceContainerLoop soup rest
      else priceContainerLoop soup rest
    | none => priceContainerLoop soup rest

/-- The individual-element loop (lines 269-279). -/
def priceIndividualLoop (soup : Doc) : List String → Option PriceInfo
  | [] => none
  | sel :: rest =>
    match soup.selectText sel with
    | some t =>
      if t ≠ "" then
        let pi := parse_price_info t
        if pi.discounted_price ≠ "N/A" ∨ pi.mrp ≠ "N/A" then some pi
        else priceIndividualLoop soup rest
      else priceIndividualLoop soup rest
    | none => priceIndividualLoop soup rest

/-- `extract_price_info` (lines 213-281). -/
def extract_price_info (soup : Doc) : PriceInfo :=
  match priceContainerLoop soup price_containers with
  | some pi => pi
  | none =>
    match priceIndividualLoop soup individual_price_selectors with
    | some pi => pi
    | none => ⟨"N/A", "N/A"⟩

/-! ### `extract_image` (lines 504-612) -/

/-- The image selector list (lines 506-531). -/
def image_selectors : List String :=
  ["img[class*='product-image']", "img[class*='ProductImage']",
   "img[class*='medicine-image']", "img[class*='drug-image']",
   ".ProductImage img", ".ProductImage__image img", ".DrugImage img",
   ".MedicineImage img", ".product-photo img", ".product-image img",
   ".medicine-photo img", ".drug-photo img", "img.style__product-image___3CRoG",
   ".product-image img", ".medicine-image", ".product-photo img",
   "img[src*='1mg']", "img[data-src*='1mg']", "img[alt*='medicine']",
   "img[alt*='drug']", "img[alt*='product']"]

def image_exts : List String := [".jpg", ".jpeg", ".png", ".webp", ".gif"]

/-- Line 553 / 563: `any(ext in url.lower() for ext in [...])` — substring
containment in the lowercased URL, not a suffix test. -/
def hasImageExt (u : String) : Bool :=
  image_exts.any fun e => containsSub e.data (toLowerL u.data)

/-- Python's `a or b or …` over optional attribute strings: the first value
that is neither absent nor empty. -/
def firstTruthy : List (Option String) → Option String
  | [] => none
  | some s :: rest => if s = "" then firstTruthy rest else some s
  | none :: rest => firstTruthy rest

/-- Python `str.startswith` (kept kernel-reducible by working on the
character lists). -/
def startsWithL (s pre : String) : Bool := pre.data.isPrefixOf s.data

/-- Split at the first occurrence of `needle`: the part before it and the
part after it. -/
def splitFirst (needle : List Char) : List Char → Option (List Char × List Char)
  | [] => if needle.isEmpty then some ([], []) else none
  | c :: cs =>
    if needle.isPrefixOf (c :: cs) then some ([], (c :: cs).drop needle.length)
    else (splitFirst needle cs).map fun p => (c :: p.1, p.2)

/-- Modelled from the spec: `urllib.parse.urljoin` is an external URL
collaborator (the spec lists HTTP fetching and URL handling as out of
scope); this model covers the root-relative and plain-relative resolutions
the scraper feeds it.  No theorem below depends on its value. -/
def urljoin (base rel : String) : String :=
  if startsWithL rel "/" then
    match splitFirst "://".data base.data with
    | some (pre, post) =>
      String.mk (pre ++ "://".data ++ post.takeWhile fun c => c ≠ '/') ++ rel
    | none => rel
  else
    String.mk ((base.data.reverse.dropWhile fun c => c ≠ '/').reverse) ++ rel

/-- Lines 544-550: protocol-relative, root-relative and relative source
cleanup of the primary loop. -/
def resolveImgUrl (base src : String) : String :=
  if startsWithL src "//" then "https:" ++ src
  else if startsWithL src "/" then urljoin base src
  else if ¬ startsWithL src "http" then urljoin base src
  else src

/-- Lines 564-567 / 582-592 / 604-607: the fallbacks clean up only
protocol-relative and root-relative sources. -/
def resolveImgUrl2 (base src : String) : String :=
  if startsWithL src "//" then "https:" ++ src
  else if startsWithL src "/" then urljoin base src
  else src

/-- The primary image-locator loop (lines 533-556): resolve the first
truthy source attribute and return it only when `hasImageExt` accepts the
resolved URL; otherwise continue with the next selector. -/
def primaryImageLoop (soup : Doc) (base : String) : List String → Option String
  | [] => none
  | sel :: rest =>
    match soup.selectImg sel with
    | some img =>
      match firstTruthy [img.src, img.dataSrc, img.dataLazySrc, img.dataOriginal] with
      | some src =>
        if hasImageExt (resolveImgUrl base src) then some (resolveImgUrl base src)
        else primaryImageLoop soup base rest
      | none => primaryImageLoop soup base rest
    | none => primaryImageLoop soup base rest

/-- Lines 559-568: any `img` whose `src`/`data-src` mentions the `1mg`
domain token and an image extension. -/
def domainImgScan (base : String) : List Img → Option String
  | [] => none
  | img :: rest =>
    match firstTruthy [img.src, img.dataSrc] with
    | some src =>
      if containsSub "1mg".data src.data ∧ hasImageExt src then
        some (resolveImgUrl2 base src)
      else domainImgScan base rest
    | none => domainImgScan base rest

/-- Lines 573-597: the JSON-LD `image` payloads (string, or first element
of a non-empty list). -/
def ldScan (base : String) : List (Option LdImage) → Option String
  | [] => none
  | some (.strVal s) :: _ => some (resolveImgUrl2 base s)
  | some (.listVal (x :: _)) :: _ => some (resolveImgUrl2 base x)
  | some (.listVal []) :: rest => ldScan base rest
  | none :: rest => ldScan base rest

/-- `extract_image` (lines 504-612). -/
def extract_image (soup : Doc) (base_url : String) : String :=
  match primaryImageLoop soup base_url image_selectors with
  | some u => u
  | none =>
    match domainImgScan base_url soup.allImgs with
    | some u => u
    | none =>
      match ldScan base_url soup.ldImages with
      | some u => u
      | none =>
        match soup.ogImage with
        | some c => if c ≠ "" then resolveImgUrl2 base_url c else "N/A"
        | none => "N/A"

/-! ### Records, `scrape_medicine` and the batch loop -/

/-- The name selector list (lines 55-73). -/
def name_selectors : List String :=
  [".DrugHeader__title", ".DrugHeader__name", ".ProductInfo__title",
   ".ProductInfo__name", "h1[class*='DrugHeader']", "h1[class*='ProductInfo']",
   "h1[class*='title']", "h1[class*='name']", "h1", ".style__product-name",
   ".medicine-name", ".drug-name", ".product-title", "[class*='title']",
   "[class*='name']"]

/-- The manufacturer selector list (lines 79-94). -/
def manufacturer_selectors : List String :=
  [".DrugHeader__manufacturer", ".DrugHeader__brand-name", ".DrugHeader__company",
   ".ProductInfo__manufacturer", ".ProductInfo__brand", ".manufacturer",
   ".brand-name", ".company-name", ".drug-manufacturer", ".medicine-brand",
   "[class*='manufacturer']", "[class*='brand']", "[class*='company']"]

/-- The composition selector list (lines 96-110). -/
def composition_selectors : List String :=
  [".DrugHeader__salt-info", ".DrugHeader__composition", ".ProductInfo__composition",
   ".ProductInfo__salt", ".salt-info", ".composition", ".medicine-composition",
   ".drug-composition", ".salt-composition", "[class*='salt']",
   "[class*='composition']", "[class*='ingredient']"]

/-- One scraped record: the dict assembled at lines 121-132 / 616-627. -/
structure MedRecord where
  name : String
  mrp : String
  discounted_price : String
  price : String
  quantity : String
  image : String
  manufacturer : String
  composition : String
  url : String
  status : String
deriving DecidableEq

/-- `create_error_record` (lines 614-627). -/
def create_error_record (url error_msg : String) : MedRecord :=
  { name := "Error", mrp := "Error", discounted_price := "Error", price := "Error",
    quantity := "Error", image := "Error", manufacturer := "Error",
    composition := "Error", url := url, status := error_msg }

/-- The outcome of fetching and parsing one URL, at the boundary of the
external HTTP and HTML collaborators: a `requests` `RequestException`
carrying the interpolated message `e` (line 137), any other exception
raised while extracting (line 140), or a parsed document. -/
inductive FetchOutcome where
  | netErr (e : String)
  | parseErr (e : String)
  | ok (doc : Doc)

/-- `scrape_medicine` (lines 25-142).  The fixed delay and the logging are
effect-free for the record; the two `except` arms build the error record
with the interpolated cause string and return it to the caller rather than
re-raising. -/
def scrape_medicine (url : String) (outcome : FetchOutcome) : MedRecord :=
  match outcome with
  | .netErr e => create_error_record url ("Network error: " ++ e)
  | .parseErr e => create_error_record url ("Parsing error: " ++ e)
  | .ok soup =>
    let name := extract_field soup name_selectors
    let image := extract_image soup url
    let manufacturer := extract_field soup manufacturer_selectors
    let composition := extract_field soup composition_selectors
    let quantity := extract_quantity soup
    let price_info := extract_price_info soup
    { name := name, mrp := price_info.mrp,
      discounted_price := price_info.discounted_price,
      price := price_info.discounted_price, quantity := quantity, image := image,
      manufacturer := manufacturer, composition := composition, url := url,
      status := "Success" }

/-- `scrape_medicines_batch` (lines 629-679): one record is appended per
URL, in input order.  The periodic progress snapshot (lines 659-673) only
writes the already-appended prefix to external storage, and the loop's
`except` arm is reachable only through that external persistence
collaborator (`scrape_medicine` itself catches every `Exception`), so the
batch is the per-URL map.  An empty URL list yields the empty frame. -/
def scrape_medicines_batch (urls : List String) (fetch : String → FetchOutcome) :
    List MedRecord :=
  match urls with
  | [] => []
  | u :: rest => scrape_medicine u (fetch u) :: scrape_medicines_batch rest fetch

/-! ### Claim-side definitions (used only to state properties) -/

/-- The path part of a URL as the image-extension claim reads it: everything
before the query or fragment.  Used only to state what "the path ends with
a known image extension" would mean; the source itself never computes this. -/
def pathEndsWithImageExt (u : String) : Bool :=
  image_exts.any fun e =>
    e.data.isSuffixOf (toLowerL (u.data.takeWhile fun c => c ≠ '?' ∧ c ≠ '#'))

/-! ### Concrete documents used to instantiate the theorems -/

/-- A document whose first matching image locator resolves to an absolute
URL that merely contains `.jpg` in the middle of its path. -/
def imgDoc : Doc :=
  { selectText := fun _ => none,
    selectImg := fun sel =>
      if sel = "img[class*='product-image']" then
        some { src := some "https://www.1mg.com/images/pic.jpg.bak",
               dataSrc := none, dataLazySrc := none, dataOriginal := none }
      else none,
    allImgs := [], ldImages := [], ogImage := none, fullText := "" }

/-- A document whose first price-like locator matches text with no usable
price and whose second locator matches a name. -/
def fieldDoc : Doc :=
  { selectText := fun sel =>
      if sel = "[class*='price']" then some "Contact"
      else if sel = ".drug-name" then some "Paracetamol"
      else none,
    selectImg := fun _ => none, allImgs := [], ldImages := [], ogImage := none,
    fullText := "" }

/-- A document whose pack-size element carries a composite quantity text. -/
def quantDoc1 : Doc :=
  { selectText := fun sel =>
      if sel = ".DrugHeader__pack-size" then some "15.0 tablets in 1 strip" else none,
    selectImg := fun _ => none, allImgs := [], ldImages := [], ogImage := none,
    fullText := "" }

/-- A document with no quantity element but a capsule count in its visible
text, exercising the whole-text fallback. -/
def quantDoc2 : Doc :=
  { selectText := fun _ => none, selectImg := fun _ => none, allImgs := [],
    ldImages := [], ogImage := none, fullText := "2 capsules" }

/-! ## Helper lemmas -/

theorem batch_map (urls : List String) (fetch : String → FetchOutcome) :
    scrape_medicines_batch urls fetch =
      urls.map fun u => scrape_medicine u (fetch u) := by
  induction urls with
  | nil => rfl
  | cons u rest ih => simp [scrape_medicines_batch, ih]

@[simp] theorem scrape_medicine_url (u : String) (o : FetchOutcome) :
    (scrape_medicine u o).url = u := by
  cases o <;> rfl

theorem rupee_cons_ne_nA (v : List Char) : ('₹' :: v) ≠ nA := by
  intro h
  rw [show nA = 'N' :: ['/', 'A'] from rfl] at h
  injection h with h1 _
  exact absurd h1 (by decide)

theorem mrpFromCascade_none {t : List Char} (h : mrpCascade t = none) :
    mrpFromCascade t = nA := by
  unfold mrpFromCascade; rw [h]

theorem mrpFromCascade_some {t v : List Char} (h : mrpCascade t = some v) :
    mrpFromCascade t = '₹' :: cleanupMrpDecimal v := by
  unfold mrpFromCascade; rw [h]

theorem discFromCascade_none {t : List Char} (h : discCascade t = none) :
    discFromCascade t = nA := by
  unfold discFromCascade; rw [h]

theorem discFromCascade_some {t v : List Char} (h : discCascade t = some v) :
    discFromCascade t = '₹' :: v := by
  unfold discFromCascade; rw [h]

theorem mrpTokenFallback_fst_ne (t : List Char) (p : List Char × List Char)
    (h : p.1 ≠ nA) : (mrpTokenFallback t p).1 = p.1 := by
  unfold mrpTokenFallback
  split
  · split
    · simp [h]
    · rfl
  · rfl

theorem mrpTokenFallback_snd_ne (t : List Char) (p : List Char × List Char)
    (h : p.2 ≠ nA) : (mrpTokenFallback t p).2 = p.2 := by
  unfold mrpTokenFallback
  split
  · split
    · simp [h]
    · rfl
  · rfl

theorem mirrorSingle_fst_ne (p : List Char × List Char) (h : p.1 ≠ nA) :
    (mirrorSingle p).1 = p.1 := by
  unfold mirrorSingle
  split
  · rfl
  · split
    · rename_i h2
      exact absurd h2.1 h
    · rfl

theorem mirrorSingle_snd_ne (p : List Char × List Char) (h : p.2 ≠ nA) :
    (mirrorSingle p).2 = p.2 := by
  unfold mirrorSingle
  split
  · rename_i h1
    exact absurd h1.1 h
  · split
    · rfl
    · rfl

theorem mirrorSingle_nA_iff (p : List Char × List Char) :
    (mirrorSingle p).1 = nA ↔ (mirrorSingle p).2 = nA := by
  unfold mirrorSingle
  split
  · exact Iff.rfl
  · split
    · exact Iff.rfl
    · rename_i h1 h2
      constructor
      · intro hm
        by_contra hd
        exact h2 ⟨hm, hd⟩
      · intro hd
        by_contra hm
        exact h1 ⟨hd, hm⟩

theorem parse_price_pair_fst_eq (t x : List Char) (hx : mrpFromCascade t = x)
    (hne : x ≠ nA) : (parse_price_pair t).1 = x := by
  unfold parse_price_pair
  rw [hx]
  have h1 : (mrpTokenFallback t (x, discFromCascade t)).1 = x :=
    mrpTokenFallback_fst_ne t _ hne
  rw [mirrorSingle_fst_ne _ (by rw [h1]; exact hne), h1]

theorem parse_price_pair_snd_eq (t x : List Char) (hx : discFromCascade t = x)
    (hne : x ≠ nA) : (parse_price_pair t).2 = x := by
  unfold parse_price_pair
  rw [hx]
  have h1 : (mrpTokenFallback t (mrpFromCascade t, x)).2 = x :=
    mrpTokenFallback_snd_ne t _ hne
  rw [mirrorSingle_snd_ne _ (by rw [h1]; exact hne), h1]

theorem stringMk_eq_nA_iff (l : List Char) : String.mk l = "N/A" ↔ l = nA := by
  constructor
  · intro h
    have h2 := congrArg String.data h
    rw [show ("N/A" : String).data = nA from rfl] at h2
    exact h2
  · intro h
    rw [h]
    rfl

theorem findAllRupeeAux_cons (n : Nat) (c : Char) (cs : List Char) :
    findAllRupeeAux (n + 1) (c :: cs) =
      if c = '₹' then
        match matchNum (eatSpaces cs) with
        | some (v, rest) => v :: findAllRupeeAux n rest
        | none => findAllRupeeAux n cs
      else findAllRupeeAux n cs := rfl

theorem findAllRupeeAux_contains :
    ∀ (fuel : Nat) (t : List Char), findAllRupeeAux fuel t ≠ [] →
      containsSub "₹".data t = true := by
  intro fuel
  induction fuel with
  | zero => intro t h; exact absurd rfl h
  | succ n ih =>
    intro t h
    match t with
    | [] => exact absurd rfl h
    | c :: cs =>
      by_cases hc : c = '₹'
      · subst hc
        simp [containsSub, List.isPrefixOf]
      · have h2 : findAllRupeeAux n cs ≠ [] := by
          rw [findAllRupeeAux_cons, if_neg hc] at h
          exact h
        have h3 := ih cs h2
        unfold containsSub
        rw [h3]
        simp

theorem findAllRupee_contains {t : List Char} (h : findAllRupee t ≠ []) :
    containsSub "₹".data t = true :=
  findAllRupeeAux_contains t.length t h

/-! ## Claim theorems -/

/-- C1: for every input list of URLs and every fetch behaviour,
`scrape_medicines_batch` returns exactly one record per URL: the batch's
length equals the input's, its i-th record is the scrape of the i-th URL,
and that record carries the i-th URL.  The equation holds for all outcomes
(`netErr`, `parseErr`, `ok`), so a per-URL network or parsing failure never
aborts the batch or changes the record count. -/
theorem scrape_medicines_batch_one_record_per_url
    (urls : List String) (fetch : String → FetchOutcome) :
    (scrape_medicines_batch urls fetch).length = urls.length ∧
    (∀ i : Nat, (scrape_medicines_batch urls fetch)[i]? =
      (urls[i]?).map fun u => scrape_medicine u (fetch u)) ∧
    ∀ i : Nat,
      ((scrape_medicines_batch urls fetch)[i]?).map MedRecord.url = urls[i]? := by
  rw [batch_map]
  refine ⟨List.length_map _ _, fun i => ?_, fun i => ?_⟩
  · exact List.getElem?_map ..
  · simp only [List.getElem?_map, Option.map_map]
    rcases urls[i]? with _ | u
    · rfl
    · simp [Function.comp, scrape_medicine_url]

/-- C2: whenever fetching or extracting a URL fails (a network
`RequestException` or any exception raised during extraction),
`scrape_medicine` returns — rather than re-raising — the error record whose
eight data fields are all `"Error"`, whose `url` is the input URL and whose
`status` is the human-readable cause string built at lines 139/142. -/
theorem scrape_medicine_failure_error_record (url e : String) :
    scrape_medicine url (.netErr e) =
      create_error_record url ("Network error: " ++ e) ∧
    scrape_medicine url (.parseErr e) =
      create_error_record url ("Parsing error: " ++ e) ∧
    ∀ m : String,
      (create_error_record url m).name = "Error" ∧
      (create_error_record url m).mrp = "Error" ∧
      (create_error_record url m).discounted_price = "Error" ∧
      (create_error_record url m).price = "Error" ∧
      (create_error_record url m).quantity = "Error" ∧
      (create_error_record url m).image = "Error" ∧
      (create_error_record url m).manufacturer = "Error" ∧
      (create_error_record url m).composition = "Error" ∧
      (create_error_record url m).url = url ∧
      (create_error_record url m).status = m :=
  ⟨rfl, rfl, fun _ => ⟨rfl, rfl, rfl, rfl, rfl, rfl, rfl, rfl, rfl, rfl⟩⟩

/-- C3 (amended): when `extract_field` reaches a locator whose name
suggests a price field and that locator matches a node with non-empty text
but price cleanup of that text yields no usable value ("N/A"),
`extract_field` returns the cleaned sentinel `"N/A"` at once — lines
426-429 rebind `text` to the cleaned value and return it on both paths —
rather than skipping to the next locator in the list. -/
theorem extract_field_price_cleanup_na (soup : Doc) (sel : String)
    (rest : List String) (t : String) (hsel : soup.selectText sel = some t)
    (hne : t ≠ "") (hp : isPriceSelector sel = true)
    (hclean : clean_price_text t = "N/A") :
    extract_field soup (sel :: rest) = "N/A" := by
  show (match soup.selectText sel with
    | some t =>
      if t ≠ "" then
        if isPriceSelector sel then clean_price_text t else t
      else extract_field soup rest
    | none => extract_field soup rest) = "N/A"
  rw [hsel]
  show (if t ≠ "" then
      if isPriceSelector sel then clean_price_text t else t
    else extract_field soup rest) = "N/A"
  rw [if_pos hne, if_pos hp, hclean]

/-- C3 counterexample: a price locator matches text whose cleanup yields
"N/A" while the next locator matches a name; `extract_field` returns "N/A"
instead of skipping to that next locator, which alone would have yielded
"Paracetamol". -/
theorem extract_field_price_cleanup_na_counterexample :
    extract_field fieldDoc ["[class*='price']", ".drug-name"] = "N/A" ∧
    extract_field fieldDoc [".drug-name"] = "Paracetamol" := by
  exact ⟨by decide, by decide⟩

/-- C3 witness: the amended theorem instantiated at the concrete document. -/
theorem extract_field_price_cleanup_na_witness :
    extract_field fieldDoc ["[class*='price']"] = "N/A" :=
  extract_field_price_cleanup_na fieldDoc "[class*='price']" [] "Contact"
    (by decide) (by decide) (by decide) (by decide)

/-- C4 (amended): a single unlabeled currency amount is not captured:
`parse_price_info "₹199"` yields "N/A" for both fields (not the mirrored
"₹199"), and in general any text on which both labelled cascades fail and
which lacks the literal "MRP" token resolves both fields to "N/A" — the
mirror step only copies a value some pattern found. -/
theorem parse_price_info_unlabeled_na (s : String)
    (hm : mrpCascade (normWs s.data) = none)
    (hd : discCascade (normWs s.data) = none)
    (hmrp : containsSub "MRP".data (normWs s.data) = false) :
    parse_price_info s = ⟨"N/A", "N/A"⟩ := by
  have hpair : parse_price_pair (normWs s.data) = (nA, nA) := by
    unfold parse_price_pair
    rw [mrpFromCascade_none hm, discFromCascade_none hd]
    have hfb : mrpTokenFallback (normWs s.data) (nA, nA) = (nA, nA) := by
      unfold mrpTokenFallback
      rw [hmrp]
      simp
    rw [hfb]
    simp [mirrorSingle]
  unfold parse_price_info
  rw [hpair]
  rfl

/-- C4 counterexample: `parse_price_info "₹199"` is `{mrp := "N/A",
discounted_price := "N/A"}`, not the claimed mirrored `"₹199"` pair. -/
theorem parse_price_info_unlabeled_counterexample :
    parse_price_info "₹199" = ⟨"N/A", "N/A"⟩ ∧
    parse_price_info "₹199" ≠ ⟨"₹199", "₹199"⟩ := by
  exact ⟨by decide, by decide⟩

/-- C4 witness: the amended theorem instantiated at "₹199". -/
theorem parse_price_info_unlabeled_na_witness :
    parse_price_info "₹199" = ⟨"N/A", "N/A"⟩ :=
  parse_price_info_unlabeled_na "₹199" (by decide) (by decide) (by decide)

/-- C5 (amended): only a value matched by the MRP-labelled patterns passes
through the two-decimal cleanup (`cleanupMrpDecimal`, lines 303-305); a
value matched by the discount-labelled patterns is formatted verbatim, with
however many fractional digits it has.  In particular parsing
"MRP ₹34.274" yields mrp "₹34.27". -/
theorem parse_price_info_rounding_only_mrp :
    (∀ (s : String) (v : List Char), mrpCascade (normWs s.data) = some v →
      (parse_price_info s).mrp = String.mk ('₹' :: cleanupMrpDecimal v)) ∧
    (∀ (s : String) (v : List Char), discCascade (normWs s.data) = some v →
      (parse_price_info s).discounted_price = String.mk ('₹' :: v)) ∧
    parse_price_info "MRP ₹34.274" = ⟨"₹34.27", "₹34.27"⟩ := by
  refine ⟨fun s v hv => ?_, fun s v hv => ?_, by decide⟩
  · show String.mk (parse_price_pair (normWs s.data)).1 = _
    rw [parse_price_pair_fst_eq _ _ (mrpFromCascade_some hv) (rupee_cons_ne_nA _)]
  · show String.mk (parse_price_pair (normWs s.data)).2 = _
    rw [parse_price_pair_snd_eq _ _ (discFromCascade_some hv) (rupee_cons_ne_nA _)]

/-- C5 counterexample: the discount-labelled match "50.123" keeps its three
fractional digits — `parse_price_info "Offer Price: ₹50.123"` yields
"₹50.123", not the rounded "₹50.12" the claim requires for any matched
value. -/
theorem parse_price_info_disc_not_rounded_counterexample :
    parse_price_info "Offer Price: ₹50.123" = ⟨"₹50.123", "₹50.123"⟩ ∧
    ("₹50.123" : String) ≠ "₹50.12" := by
  exact ⟨by decide, by decide⟩

/-- C5 witness: the amended theorem instantiated at "MRP ₹34.274" (rounded)
and "Offer Price: ₹50.123" (kept verbatim). -/
theorem parse_price_info_rounding_only_mrp_witness :
    (parse_price_info "MRP ₹34.274").mrp =
      String.mk ('₹' :: cleanupMrpDecimal "34.274".data) ∧
    (parse_price_info "Offer Price: ₹50.123").discounted_price =
      String.mk ('₹' :: "50.123".data) :=
  ⟨parse_price_info_rounding_only_mrp.1 "MRP ₹34.274" "34.274".data (by decide),
   parse_price_info_rounding_only_mrp.2.1 "Offer Price: ₹50.123" "50.123".data
     (by decide)⟩

/-- C6: when both the MRP-labelled and the discount-labelled cascades fail
on the normalised text but it contains the literal token "MRP" and at least
two ₹-amount occurrences, `parse_price_info` takes the first occurrence as
the MRP and the second as the discounted price. -/
theorem parse_price_info_mrp_token_two_amounts (s : String) (a b : List Char)
    (l : List (List Char))
    (hm : mrpCascade (normWs s.data) = none)
    (hd : discCascade (normWs s.data) = none)
    (hmrp : containsSub "MRP".data (normWs s.data) = true)
    (hfa : findAllRupee (normWs s.data) = a :: b :: l) :
    parse_price_info s = ⟨String.mk ('₹' :: a), String.mk ('₹' :: b)⟩ := by
  have hrup : containsSub "₹".data (normWs s.data) = true :=
    findAllRupee_contains (by rw [hfa]; exact fun hcon => List.noConfusion hcon)
  have hpair : parse_price_pair (normWs s.data) = ('₹' :: a, '₹' :: b) := by
    unfold parse_price_pair
    rw [mrpFromCascade_none hm, discFromCascade_none hd]
    have hfb : mrpTokenFallback (normWs s.data) (nA, nA) = ('₹' :: a, '₹' :: b) := by
      unfold mrpTokenFallback
      rw [hmrp, hrup, hfa]
      simp
    rw [hfb]
    simp [mirrorSingle, rupee_cons_ne_nA]
  unfold parse_price_info
  rw [hpair]

/-- C6 witness: the theorem instantiated at "MRP: ₹55 ₹50" (the colon
defeats the labelled MRP pattern, so only the token fallback fires). -/
theorem parse_price_info_mrp_token_two_amounts_witness :
    parse_price_info "MRP: ₹55 ₹50" =
      ⟨String.mk ('₹' :: "55".data), String.mk ('₹' :: "50".data)⟩ :=
  parse_price_info_mrp_token_two_amounts "MRP: ₹55 ₹50" "55".data "50".data []
    (by decide) (by decide) (by decide) (by decide)

/-- C7 (amended): the mirror step (lines 334-338) copies a found value into
the other field only when that field is still "N/A" after the MRP-token
fallback — which may already have filled it with the second ₹-amount
instead of a copy.  The invariant part of the claim does hold: the result
never has exactly one of {mrp, discounted_price} equal to "N/A". -/
theorem parse_price_info_na_iff (s : String) :
    ((parse_price_info s).mrp = "N/A" ↔
      (parse_price_info s).discounted_price = "N/A") := by
  show (String.mk (parse_price_pair (normWs s.data)).1 = "N/A" ↔
    String.mk (parse_price_pair (normWs s.data)).2 = "N/A")
  rw [stringMk_eq_nA_iff, stringMk_eq_nA_iff]
  unfold parse_price_pair
  exact mirrorSingle_nA_iff _

/-- C7 counterexample: on "MRP ₹55 ₹50" the cascade finds only the MRP
("₹55"), yet the discounted price becomes "₹50" (the second amount, via the
token fallback), not a copy of the found value. -/
theorem parse_price_info_mirror_counterexample :
    mrpCascade (normWs "MRP ₹55 ₹50".data) = some "55".data ∧
    discCascade (normWs "MRP ₹55 ₹50".data) = none ∧
    parse_price_info "MRP ₹55 ₹50" = ⟨"₹55", "₹50"⟩ ∧
    ("₹50" : String) ≠ "₹55" := by
  exact ⟨by decide, by decide, by decide, by decide⟩

/-- C8: whenever the quantity pattern family matches a text, the extractor
strips a trailing ".0" from the matched number and returns
"<number> tablets" regardless of the original unit word — in the
per-element step and in the whole-text fallback — and the two spec examples
hold end-to-end through `extract_quantity`. -/
theorem extract_quantity_number_tablets :
    (∀ (t : String) (q : List Char), reSearch matchQuantSel t.data = some q →
      quantityFromText t = some (String.mk (stripDot0 q ++ " tablets".data))) ∧
    (∀ (t : String) (q : List Char),
      firstSome quantity_fallback_patterns t.data = some q →
      quantityFallback t = some (String.mk (stripDot0 q ++ " tablets".data))) ∧
    extract_quantity quantDoc1 = "15 tablets" ∧
    extract_quantity quantDoc2 = "2 tablets" := by
  refine ⟨fun t q hq => ?_, fun t q hq => ?_, by decide, by decide⟩
  · unfold quantityFromText
    rw [hq]
    rfl
  · unfold quantityFallback
    rw [hq]
    rfl

/-- C8 witness: the per-element part at "15.0 tablets in 1 strip" and the
fallback part at "2 capsules". -/
theorem extract_quantity_number_tablets_witness :
    quantityFromText "15.0 tablets in 1 strip" =
      some (String.mk (stripDot0 "15.0".data ++ " tablets".data)) ∧
    quantityFallback "2 capsules" =
      some (String.mk (stripDot0 "2".data ++ " tablets".data)) :=
  ⟨extract_quantity_number_tablets.1 "15.0 tablets in 1 strip" "15.0".data
     (by decide),
   extract_quantity_number_tablets.2.1 "2 capsules" "2".data (by decide)⟩

/-- C9 (amended): the primary image-locator loop accepts a resolved URL
exactly when one of the five known extensions occurs as a substring of the
lowercased URL (line 553's `any(ext in img_src.lower() ...)`) — a
containment test, not a path-suffix test — so every URL it returns contains
an extension, but its path need not end with one. -/
theorem primaryImageLoop_accepts_ext (soup : Doc) (base : String) :
    ∀ (sels : List String) (u : String),
      primaryImageLoop soup base sels = some u → hasImageExt u = true := by
  intro sels
  induction sels with
  | nil => intro u h; exact Option.noConfusion h
  | cons sel rest ih =>
    intro u h
    unfold primaryImageLoop at h
    split at h
    · split at h
      · split at h
        · injection h with h2
          rw [← h2]
          assumption
        · exact ih u h
      · exact ih u h
    · exact ih u h

/-- C9 counterexample: the loop returns
"https://www.1mg.com/images/pic.jpg.bak", whose path does not end with a
known image extension, and `extract_image` surfaces it. -/
theorem primaryImageLoop_accepts_ext_counterexample :
    primaryImageLoop imgDoc "https://www.1mg.com/drugs/x" image_selectors =
      some "https://www.1mg.com/images/pic.jpg.bak" ∧
    pathEndsWithImageExt "https://www.1mg.com/images/pic.jpg.bak" = false ∧
    extract_image imgDoc "https://www.1mg.com/drugs/x" =
      "https://www.1mg.com/images/pic.jpg.bak" := by
  exact ⟨by decide, by decide, by decide⟩

/-- C9 witness: the amended theorem instantiated at the concrete document. -/
theorem primaryImageLoop_accepts_ext_witness :
    hasImageExt "https://www.1mg.com/images/pic.jpg.bak" = true :=
  primaryImageLoop_accepts_ext imgDoc "https://www.1mg.com/drugs/x"
    image_selectors "https://www.1mg.com/images/pic.jpg.bak" (by decide)

/-- C10: every record the scraper produces — success records (line 125
copies the discounted price into the `price` column) and error records
(both fields "Error") alike — satisfies `price = discounted_price`. -/
theorem batch_price_eq_discounted (urls : List String)
    (fetch : String → FetchOutcome) (r : MedRecord)
    (hr : r ∈ scrape_medicines_batch urls fetch) :
    r.price = r.discounted_price := by
  rw [batch_map] at hr
  obtain ⟨u, _, hru⟩ := List.mem_map.mp hr
  rcases hfo : fetch u with e | e | d <;> rw [hfo] at hru <;> rw [← hru] <;> rfl

/-- C10 witness: the theorem instantiated at a one-URL batch whose fetch
fails with a network error. -/
theorem batch_price_eq_discounted_witness :
    (scrape_medicine "u" (FetchOutcome.netErr "t")).price =
      (scrape_medicine "u" (FetchOutcome.netErr "t")).discounted_price :=
  batch_price_eq_discounted ["u"] (fun _ => FetchOutcome.netErr "t") _
    (List.mem_singleton.mpr rfl)

end MedScraper
